import Mathlib

/-!
Verification of the research-paper scraping and image-generation job-polling
core of the ai-research-visualizer repository.

The development shallowly embeds `src/backend/scraper.py` (class `PaperScraper`)
and `src/backend/scenario_client.py` (class `ScenarioClient`).  Network and
HTML-parsing library calls are modelled as oracle parameters; everything the
code of the repository itself does (domain dispatch, retry loops, thresholds,
the polling state machine, per-asset skip-and-continue) is translated
directly.
-/

namespace AIRV

/-! ## Python-style string primitives (on `List Char`, kernel-reducible) -/

/-- Whitespace characters stripped by Python `str.strip()`. -/
def isPySpace (c : Char) : Bool :=
  c == ' ' || c == '\t' || c == '\n' || c == '\r' || c == '\x0b' || c == '\x0c'

/-- Strip leading and trailing whitespace from a character list. -/
def stripL (s : List Char) : List Char :=
  ((s.dropWhile isPySpace).reverse.dropWhile isPySpace).reverse

/-- Python `str.strip()`. -/
def pyStrip (s : String) : String := String.mk (stripL s.data)

/-- Predicate `leadsL pat s`: `pat` is an initial segment of `s`. -/
def leadsL : List Char → List Char → Bool
  | [], _ => true
  | _ :: _, [] => false
  | p :: ps, c :: cs => p == c && leadsL ps cs

/-- Predicate `listHas pat s`: `pat` occurs as a contiguous sublist of `s`
(Python `pat in s`). -/
def listHas (pat : List Char) : List Char → Bool
  | [] => pat.isEmpty
  | c :: cs => leadsL pat (c :: cs) || listHas pat cs

/-- Python substring containment `pat in s`. -/
def strContains (s pat : String) : Bool := listHas pat.data s.data

/-- Whether `s` starts with the marker `pre`. -/
def strStarts (s pre : String) : Bool := leadsL pre.data s.data

/-- Replace every non-overlapping occurrence of `pat` (nonempty) by `repl`,
left to right, as Python `str.replace`.  `fuel` bounds the recursion and is
instantiated with the length of the subject, which suffices because every
step consumes at least one character. -/
def replaceAllGo (pat repl : List Char) : Nat → List Char → List Char
  | _, [] => []
  | 0, s => s
  | fuel + 1, c :: cs =>
    if leadsL pat (c :: cs) && !pat.isEmpty then
      repl ++ replaceAllGo pat repl fuel ((c :: cs).drop pat.length)
    else
      c :: replaceAllGo pat repl fuel cs

/-- Python `s.replace(pat, repl)` for nonempty `pat`. -/
def pyReplace (s pat repl : String) : String :=
  String.mk (replaceAllGo pat.data repl.data s.data.length s.data)

/-- Characters allowed after the first letter of a URL scheme. -/
def isSchemeChar (c : Char) : Bool :=
  c.isAlphanum || c == '+' || c == '-' || c == '.'

/-- Drop a leading `scheme:` from a URL if a syntactically valid scheme
is present, following `urllib.parse.urlparse`. -/
def dropScheme (s : List Char) : List Char :=
  let pre := s.takeWhile (fun c => c != ':' && c != '/' && c != '?' && c != '#')
  match s.drop pre.length with
  | ':' :: tail =>
    match pre with
    | [] => s
    | c :: cs => if c.isAlpha && cs.all isSchemeChar then tail else s
  | _ => s

/-- The authority (netloc) component of a URL, as computed by
`urllib.parse.urlparse(url).netloc`: present exactly when the remainder after
the scheme starts with `//`, extending to the next `/`, `?` or `#`. -/
def netlocL (s : List Char) : List Char :=
  match dropScheme s with
  | '/' :: '/' :: rest => rest.takeWhile (fun c => c != '/' && c != '?' && c != '#')
  | _ => []

/-- Model of `urlparse(url).netloc.lower()` from `scrape_abstract`. -/
def netlocLower (url : String) : String :=
  String.mk ((netlocL url.data).map Char.toLower)

/-! ## Data model of `scraper.py` -/

/-- The dictionary returned by `PaperScraper.scrape_abstract`. -/
structure ScrapeResult where
  abstract : String
  source : String
  success : Bool
deriving DecidableEq, Repr

/-- Oracles for the effectful library calls of `scraper.py`:
`fetch` models one `requests.get` of `_fetch_page` (body or a raised
`RequestException`), and `find html tag attrs` models
`BeautifulSoup(html).find(tag, attrs)` composed with `get_text(strip=True)`
(or the `content` attribute for `meta` tags), returning `none` when the
element is absent. -/
structure ScrapeEnv where
  fetch : String → Except Unit String
  find : String → String → String → Option String

/-- The tenacity-decorated `_fetch_page`: up to 3 calls of `requests.get`
(`stop_after_attempt(3)`, `retry_if_exception_type(RequestException)`,
`reraise=True`), stopping at the first success and re-raising the last
failure.  Returns the outcome together with the number of `requests.get`
invocations performed. -/
def fetch_page (fetch : String → Except Unit String) (url : String) :
    Except Unit String × Nat :=
  match fetch url with
  | Except.ok body => (Except.ok body, 1)
  | Except.error _ =>
    match fetch url with
    | Except.ok body => (Except.ok body, 2)
    | Except.error _ =>
      match fetch url with
      | Except.ok body => (Except.ok body, 3)
      | Except.error e => (Except.error e, 3)

/-- Model of `PaperScraper._scrape_arxiv`: fetch, locate the abstract
blockquote,
strip the leading label; any exception yields `None`. -/
def scrape_arxiv (env : ScrapeEnv) (url : String) : Option String × Nat :=
  match fetch_page env.fetch url with
  | (Except.error _, n) => (none, n)
  | (Except.ok html, n) =>
    match env.find html "blockquote" "class=abstract" with
    | some text => (some (pyStrip (pyReplace text "Abstract:" "")), n)
    | none => (none, n)

/-- Model of `PaperScraper._scrape_pubmed`: primary selector, then
alternative. -/
def scrape_pubmed (env : ScrapeEnv) (url : String) : Option String × Nat :=
  match fetch_page env.fetch url with
  | (Except.error _, n) => (none, n)
  | (Except.ok html, n) =>
    match env.find html "div" "class=abstract-content" with
    | some t => (some t, n)
    | none =>
      match env.find html "div" "id=abstract" with
      | some t => (some t, n)
      | none => (none, n)

/-- Model of `PaperScraper._scrape_ieee`. -/
def scrape_ieee (env : ScrapeEnv) (url : String) : Option String × Nat :=
  match fetch_page env.fetch url with
  | (Except.error _, n) => (none, n)
  | (Except.ok html, n) =>
    match env.find html "div" "class=abstract-text" with
    | some t => (some t, n)
    | none =>
      match env.find html "div" "class=u-mb-1" with
      | some t => (some t, n)
      | none => (none, n)

/-- Model of `PaperScraper._scrape_acm`. -/
def scrape_acm (env : ScrapeEnv) (url : String) : Option String × Nat :=
  match fetch_page env.fetch url with
  | (Except.error _, n) => (none, n)
  | (Except.ok html, n) =>
    match env.find html "div" "class=abstractSection" with
    | some t => (some t, n)
    | none =>
      match env.find html "div" "role=paragraph" with
      | some t => (some t, n)
      | none => (none, n)

/-- Model of `PaperScraper._scrape_springer`. -/
def scrape_springer (env : ScrapeEnv) (url : String) : Option String × Nat :=
  match fetch_page env.fetch url with
  | (Except.error _, n) => (none, n)
  | (Except.ok html, n) =>
    match env.find html "div" "class=c-article-section__content" with
    | some t => (some t, n)
    | none =>
      match env.find html "section" "data-title=Abstract" with
      | some t => (some t, n)
      | none => (none, n)

/-- The ordered selector list of `PaperScraper._scrape_generic`. -/
def genericSelectors : List (String × String) :=
  [("meta", "name=description"), ("meta", "property=og:description"),
   ("div", "class=abstract"), ("section", "id=abstract"),
   ("div", "id=abstract"), ("p", "class=abstract")]

/-- The selector loop of `_scrape_generic`: first element whose content is
truthy and longer than 50 characters wins; otherwise keep trying. -/
def genericLoop (find : String → String → Option String) :
    List (String × String) → Option String
  | [] => none
  | (tag, attrs) :: rest =>
    match find tag attrs with
    | some content =>
      if content ≠ "" ∧ 50 < content.length then some content
      else genericLoop find rest
    | none => genericLoop find rest

/-- Model of `PaperScraper._scrape_generic`. -/
def scrape_generic (env : ScrapeEnv) (url : String) : Option String × Nat :=
  match fetch_page env.fetch url with
  | (Except.error _, n) => (none, n)
  | (Except.ok html, n) => (genericLoop (env.find html) genericSelectors, n)

/-- The domain-dispatch chain of `scrape_abstract` (lines 82-100 of
`scraper.py`): substring tests on the lower-cased netloc select the
site-specific scraper, with the generic scraper as default. -/
def scrape_dispatch (env : ScrapeEnv) (url : String) : Option String × Nat :=
  let domain := netlocLower url
  if strContains domain "arxiv.org" then scrape_arxiv env url
  else if strContains domain "pubmed" || strContains domain "ncbi.nlm.nih.gov" then
    scrape_pubmed env url
  else if strContains domain "ieee" then scrape_ieee env url
  else if strContains domain "acm.org" then scrape_acm env url
  else if strContains domain "springer" then scrape_springer env url
  else scrape_generic env url

/-- Model of `PaperScraper.scrape_abstract`: dispatch, then accept the
stripped text
when it is truthy and strictly longer than 50 characters, else fall back to
the snippet (the internal `ScraperError` and every other exception land in
the same `except` clause producing the fallback dictionary).  The second
component counts the `requests.get` invocations performed. -/
def scrape_abstract (env : ScrapeEnv) (url fallback_snippet : String) :
    ScrapeResult × Nat :=
  match scrape_dispatch env url with
  | (some a, n) =>
    if a ≠ "" ∧ 50 < (pyStrip a).length then
      ({ abstract := pyStrip a, source := "scraped", success := true }, n)
    else
      ({ abstract := fallback_snippet, source := "snippet", success := false }, n)
  | (none, n) =>
    ({ abstract := fallback_snippet, source := "snippet", success := false }, n)

/-! ## Papers as dictionaries, and `batch_scrape` -/

/-- Values stored in a paper dictionary. -/
inductive Value where
  | vStr : String → Value
  | vBool : Bool → Value
  | vNat : Nat → Value
deriving DecidableEq, Repr

/-- A paper dictionary, as an association list in insertion order. -/
abbrev Paper := List (String × Value)

/-- Dictionary lookup (`d[k]` / `d.get(k)`), first binding wins. -/
def dictGet : Paper → String → Option Value
  | [], _ => none
  | (k', v) :: rest, k => if k' = k then some v else dictGet rest k

/-- Dictionary assignment `d[k] = v`: replace in place when the key is
present, append otherwise. -/
def dictSet : Paper → String → Value → Paper
  | [], k, v => [(k, v)]
  | (k', v') :: rest, k, v =>
    if k' = k then (k, v) :: rest else (k', v') :: dictSet rest k v

/-- Model of the `paper.get` calls with an empty-string default, for the
string-valued fields consumed by the scraper (`link`, `snippet`). -/
def getS (p : Paper) (k : String) : String :=
  match dictGet p k with
  | some (Value.vStr s) => s
  | _ => ""

/-- The body of the `batch_scrape` loop for one paper: scrape from the link
and snippet of that same paper, then store the three result fields. -/
def scrape_update (env : ScrapeEnv) (p : Paper) : Paper :=
  let r := (scrape_abstract env (getS p "link") (getS p "snippet")).1
  dictSet
    (dictSet
      (dictSet p "abstract" (Value.vStr r.abstract))
      "abstract_source" (Value.vStr r.source))
    "scrape_success" (Value.vBool r.success)

/-- Model of `PaperScraper.batch_scrape`: process every paper in input order
(the Python loop mutates each dictionary and returns the same list). -/
def batch_scrape (env : ScrapeEnv) (papers : List Paper) : List Paper :=
  papers.map (scrape_update env)

/-! ## Data model of `scenario_client.py` -/

/-- The fields of the `job` object read by `_poll_and_download` and
`_download_images`: the `status` string (empty-string default), the optional
`error` message, and the `assetIds` list nested under `metadata`
(empty-list default). -/
structure JobInfo where
  status : String
  errMsg : Option String
  assetIds : List String
deriving DecidableEq, Repr

/-- The outcome of the request phase of one polling-loop iteration.
`reqOk` is a `_make_request` success whose payload parses as a dictionary;
`reqErr` is a raised `ScenarioAPIError` (every network, HTTP and unexpected
error of `_make_request` is wrapped into this type, after its internal
3-attempt retry); `malformed` is any other exception raised while reading
the payload (e.g. the response body is not a dictionary), which reaches the
generic `except Exception` clause. -/
inductive PollStep where
  | reqOk : JobInfo → PollStep
  | reqErr : String → PollStep
  | malformed : String → PollStep
deriving DecidableEq, Repr

/-- A request phase whose payload parses as a job that is in neither
terminal remote status (`success` / `failure`): the polling loop keeps
going after such an observation. -/
def isNonTerminalOk : PollStep → Bool
  | PollStep.reqOk j => (j.status != "success") && (j.status != "failure")
  | _ => false

/-- One run of `ScenarioClient._poll_and_download` starting at `attempt`
with `remaining` loop iterations left.  Returns the outcome (downloaded
files or the message of the raised `ScenarioAPIError`), the number of
polling attempts started, and the list of `time.sleep` durations performed.
`step attempt` gives the request-phase outcome for that attempt and
`dl` models `_download_images` (which only ever raises `ScenarioAPIError`,
hence propagates through the `except ScenarioAPIError: raise` clause). -/
def pollGo (step : Nat → PollStep) (dl : JobInfo → Except String (List String))
    (maxAttempts pollInterval : Nat) :
    Nat → Nat → Except String (List String) × Nat × List Nat
  | attempt, 0 =>
    (Except.error ("Job timeout after " ++ toString (maxAttempts * pollInterval)
        ++ " seconds"), attempt, [])
  | attempt, remaining + 1 =>
    match step attempt with
    | PollStep.reqErr msg => (Except.error msg, attempt + 1, [])
    | PollStep.malformed msg =>
      if attempt = maxAttempts - 1 then
        (Except.error ("Polling failed: " ++ msg), attempt + 1, [])
      else
        pollGo step dl maxAttempts pollInterval (attempt + 1) remaining
    | PollStep.reqOk job =>
      if job.status = "success" then
        match dl job with
        | Except.ok files => (Except.ok files, attempt + 1, [])
        | Except.error e => (Except.error e, attempt + 1, [])
      else if job.status = "failure" then
        (Except.error ("Job failed: " ++ job.errMsg.getD "Unknown error"),
          attempt + 1, [])
      else
        let rest := pollGo step dl maxAttempts pollInterval (attempt + 1) remaining
        (rest.1, rest.2.1, pollInterval :: rest.2.2)

/-- `ScenarioClient._poll_and_download` with its default arguments
`max_attempts = 60`, `poll_interval = 5`. -/
def poll_and_download (step : Nat → PollStep)
    (dl : JobInfo → Except String (List String)) :
    Except String (List String) × Nat × List Nat :=
  pollGo step dl 60 5 0 60

/-- Outcome of processing one asset inside `_download_images`:
the asset-info request raised (`lookupErr`), no URL was found in the asset
data (`noUrl`), the image download raised after its retries (`downloadErr`),
or a file was written (`resolved`). All three failure shapes hit a
`continue`. -/
inductive AssetStep where
  | lookupErr : AssetStep
  | noUrl : AssetStep
  | downloadErr : String → AssetStep
  | resolved : String → AssetStep
deriving DecidableEq, Repr

/-- The filename `generated_image_{timestamp}_{i+1}.png` joined to the
output directory, as produced for the asset at position `i`. -/
def assetFilePath (dir ts : String) (i : Nat) : String :=
  dir ++ "/" ++ "generated_image_" ++ ts ++ "_" ++ toString (i + 1) ++ ".png"

/-- The per-asset loop of `_download_images`: failed assets are skipped,
successfully resolved ones contribute their file path in order. -/
def downloadLoop (resolve : Nat → String → AssetStep) (dir ts : String) :
    List (Nat × String) → List String
  | [] => []
  | (i, aid) :: rest =>
    match resolve i aid with
    | AssetStep.resolved _ => assetFilePath dir ts i :: downloadLoop resolve dir ts rest
    | _ => downloadLoop resolve dir ts rest

/-- `ScenarioClient._download_images`: read the asset identifiers from the
job metadata (hard failure when there are none), resolve each with
skip-and-continue, and fail when nothing was downloaded. -/
def download_images (resolve : Nat → String → AssetStep) (dir ts : String)
    (job : JobInfo) : Except String (List String) :=
  if job.assetIds.isEmpty then Except.error "No images found in job data"
  else
    let files := downloadLoop resolve dir ts job.assetIds.enum
    if files.isEmpty then Except.error "Failed to download any images"
    else Except.ok files

/-! ## Supporting lemmas -/

theorem strData_append (s t : String) : (s ++ t).data = s.data ++ t.data := by
  cases s
  cases t
  rfl

theorem leadsL_append_self (p t : List Char) : leadsL p (p ++ t) = true := by
  induction p with
  | nil => rfl
  | cons c cs ih => simp [leadsL, ih]

theorem strStarts_append (p e : String) : strStarts (p ++ e) p = true := by
  unfold strStarts
  rw [strData_append]
  exact leadsL_append_self p.data e.data

theorem dictGet_dictSet (d : Paper) (k k' : String) (v : Value) :
    dictGet (dictSet d k v) k' = if k' = k then some v else dictGet d k' := by
  induction d with
  | nil =>
    by_cases h : k' = k
    · simp [dictSet, dictGet, h]
    · have h2 : ¬ k = k' := fun hh => h hh.symm
      simp [dictSet, dictGet, h, h2]
  | cons hd tl ih =>
    obtain ⟨a, b⟩ := hd
    by_cases hak : a = k
    · subst hak
      by_cases hk : k' = a
      · simp [dictSet, dictGet, hk]
      · have hk2 : ¬ a = k' := fun hh => hk hh.symm
        simp [dictSet, dictGet, hk, hk2]
    · by_cases hk : k' = k
      · subst hk
        have hak2 : ¬ a = k' := fun hh => hak hh
        simp [dictSet, dictGet, hak, hak2, ih]
      · simp [dictSet, dictGet, hak, hk, ih]

theorem dictGet_scrape_update (env : ScrapeEnv) (p : Paper) (k : String) :
    dictGet (scrape_update env p) k =
      (let r := (scrape_abstract env (getS p "link") (getS p "snippet")).1
       if k = "scrape_success" then some (Value.vBool r.success)
       else if k = "abstract_source" then some (Value.vStr r.source)
       else if k = "abstract" then some (Value.vStr r.abstract)
       else dictGet p k) := by
  simp only [scrape_update, dictGet_dictSet]

/-! ## Claim C1 -/

/-- C1: `batch_scrape` returns exactly one result per input paper, in the
same ordinal position; the entry at position `i` is the input paper at
position `i` updated from its own `link` and `snippet` (see
`scrape_update`).  Extraction failure cannot abort, drop or reorder items:
`scrape_abstract` is total in the embedding (every exception resolves to the
snippet fallback), so every position is populated unconditionally. -/
theorem spec_C1_batch_scrape_order (env : ScrapeEnv) (papers : List Paper) :
    (batch_scrape env papers).length = papers.length ∧
    ∀ i : Nat, (batch_scrape env papers)[i]? =
      Option.map (scrape_update env) papers[i]? := by
  refine ⟨List.length_map papers (scrape_update env), fun i => ?_⟩
  simp [batch_scrape]

/-! ## Claim C9 -/

/-- C9: `scrape_abstract` always returns a result (the embedding is a total
function: every exception path lands in the `except` clause producing the
fallback), its `success` flag agrees with `source = scraped`, and every
result that is not `scraped` is exactly the fallback triple
(abstract = fallback snippet, source = `snippet`, success = false). -/
theorem spec_C9_scrape_invariant (env : ScrapeEnv) (url snip : String) :
    ((scrape_abstract env url snip).1.success
        = ((scrape_abstract env url snip).1.source == "scraped")) ∧
    ((scrape_abstract env url snip).1.source = "scraped" ∨
      (scrape_abstract env url snip).1 =
        { abstract := snip, source := "snippet", success := false }) := by
  rcases hd : scrape_dispatch env url with ⟨a?, n⟩
  cases a? with
  | none => simp [scrape_abstract, hd]
  | some a =>
    by_cases h : a ≠ "" ∧ 50 < (pyStrip a).length
    · simp [scrape_abstract, hd, h]
    · simp [scrape_abstract, hd, h]

/-! ## Claim C10 -/

/-- C10: `batch_scrape` returns the input list updated pointwise (the Python
loop mutates each dictionary in place and returns the same list, which the
embedding renders as content equality): position `i` of the output reads, at
key `k`, the scrape-result value when `k` is one of `abstract`,
`abstract_source`, `scrape_success`, and the untouched input value at every
other key. -/
theorem spec_C10_batch_frame (env : ScrapeEnv) (papers : List Paper) :
    (batch_scrape env papers).length = papers.length ∧
    ∀ (i : Nat) (k : String),
      Option.map (fun p => dictGet p k) (batch_scrape env papers)[i]? =
      Option.map (fun p =>
        let r := (scrape_abstract env (getS p "link") (getS p "snippet")).1
        if k = "scrape_success" then some (Value.vBool r.success)
        else if k = "abstract_source" then some (Value.vStr r.source)
        else if k = "abstract" then some (Value.vStr r.abstract)
        else dictGet p k) papers[i]? := by
  refine ⟨List.length_map papers (scrape_update env), fun i k => ?_⟩
  simp only [batch_scrape, List.getElem?_map, Option.map_map]
  cases hp : papers[i]? with
  | none => rfl
  | some p => simp [dictGet_scrape_update]

/-! ## Claim C3 -/

/-- A 50-character extraction result (no surrounding whitespace, no
`Abstract:` label). -/
def fifty : String := String.mk (List.replicate 50 'a')

/-- An environment whose fetch succeeds and whose element lookup always
returns the 50-character text. -/
def envFifty : ScrapeEnv :=
  { fetch := fun _ => Except.ok "html", find := fun _ _ _ => some fifty }

/-- C3 counterexample: an extracted abstract of length exactly 50 — equal to
the claimed threshold, hence source `scraped` under the claim — is
rejected by the code (`len(abstract.strip()) > 50` is strict) and falls back
to the snippet. -/
theorem spec_C3_counterexample :
    (scrape_dispatch envFifty "https://arxiv.org/abs/1").1 = some fifty ∧
    fifty.length = 50 ∧
    (scrape_abstract envFifty "https://arxiv.org/abs/1" "snippet-text").1 =
      { abstract := "snippet-text", source := "snippet", success := false } := by
  refine ⟨rfl, ?_, rfl⟩
  decide

/-- C3 as amended: the acceptance test of `scrape_abstract` is strict — an
extracted text whose stripped length is at most 50 (the threshold itself
included) yields source `snippet`, and only a truthy text whose stripped
length strictly exceeds 50 yields source `scraped` with success. -/
theorem spec_C3_threshold (env : ScrapeEnv) (url snip a : String) (n : Nat)
    (h : scrape_dispatch env url = (some a, n)) :
    ((pyStrip a).length ≤ 50 →
      (scrape_abstract env url snip).1 =
        { abstract := snip, source := "snippet", success := false }) ∧
    (a ≠ "" → 50 < (pyStrip a).length →
      (scrape_abstract env url snip).1 =
        { abstract := pyStrip a, source := "scraped", success := true }) := by
  constructor
  · intro hle
    have hcond : ¬ (a ≠ "" ∧ 50 < (pyStrip a).length) := by
      rintro ⟨-, hlt⟩
      omega
    simp [scrape_abstract, h, hcond]
  · intro hne hlt
    simp [scrape_abstract, h, hne, hlt]

/-- Witness for `spec_C3_threshold` at the concrete 50-character
environment. -/
theorem spec_C3_threshold_witness :
    ((pyStrip fifty).length ≤ 50 →
      (scrape_abstract envFifty "https://arxiv.org/abs/1" "sn").1 =
        { abstract := "sn", source := "snippet", success := false }) ∧
    (fifty ≠ "" → 50 < (pyStrip fifty).length →
      (scrape_abstract envFifty "https://arxiv.org/abs/1" "sn").1 =
        { abstract := pyStrip fifty, source := "scraped", success := true }) :=
  spec_C3_threshold envFifty "https://arxiv.org/abs/1" "sn" fifty 1 rfl

/-! ## Claim C4 -/

/-- An environment whose every `requests.get` raises (as the real
`requests.get` deterministically does when given the scheme-less empty URL)
and whose lookups find nothing. -/
def envDown : ScrapeEnv :=
  { fetch := fun _ => Except.error (), find := fun _ _ _ => none }

/-- C4 counterexample: a paper with an empty link does produce the snippet
fallback, but `scrape_abstract` has no short-circuit for it — the empty
netloc falls through the dispatch chain to `_scrape_generic`, which invokes
the fetch primitive; with the (deterministically failing) empty URL the
retrying `_fetch_page` performs 3 `requests.get` invocations, not 0 as the
claim requires. -/
theorem spec_C4_counterexample :
    scrape_abstract envDown "" "snip" =
      ({ abstract := "snip", source := "snippet", success := false }, 3) ∧
    (3 : Nat) ≠ 0 := by
  refine ⟨rfl, ?_⟩
  omega

/-- C4 as amended: for an empty link the result is still exactly the snippet
fallback triple, but only after the generic scraper has invoked the fetch
primitive on the empty URL — 3 `requests.get` invocations for any
environment in which fetching the empty URL raises (which is what
`requests.get` on an empty URL always does). -/
theorem spec_C4_empty_link (env : ScrapeEnv) (snip : String)
    (h : env.fetch "" = Except.error ()) :
    scrape_abstract env "" snip =
      ({ abstract := snip, source := "snippet", success := false }, 3) := by
  have hd : scrape_dispatch env "" = scrape_generic env "" := rfl
  have hf : fetch_page env.fetch "" = (Except.error (), 3) := by
    simp [fetch_page, h]
  have hg : scrape_generic env "" = (none, 3) := by
    simp [scrape_generic, hf]
  simp [scrape_abstract, hd, hg]

/-- Witness for `spec_C4_empty_link` at the concrete failing environment. -/
theorem spec_C4_empty_link_witness :
    scrape_abstract envDown "" "sn" =
      ({ abstract := "sn", source := "snippet", success := false }, 3) :=
  spec_C4_empty_link envDown "sn" rfl

/-! ## Polling-loop lemmas -/

theorem pollGo_step_success (step : Nat → PollStep)
    (dl : JobInfo → Except String (List String)) (M P a f : Nat) (j : JobInfo)
    (hstep : step a = PollStep.reqOk j) (hj : j.status = "success") :
    pollGo step dl M P a (f + 1) =
      (match dl j with
       | Except.ok files => (Except.ok files, a + 1, [])
       | Except.error e => (Except.error e, a + 1, [])) := by
  cases hdl : dl j with
  | ok files => simp [pollGo, hstep, hj, hdl]
  | error e => simp [pollGo, hstep, hj, hdl]

theorem pollGo_step_failure (step : Nat → PollStep)
    (dl : JobInfo → Except String (List String)) (M P a f : Nat) (j : JobInfo)
    (hstep : step a = PollStep.reqOk j) (hj : j.status = "failure") :
    pollGo step dl M P a (f + 1) =
      (Except.error ("Job failed: " ++ j.errMsg.getD "Unknown error"),
        a + 1, []) := by
  simp [pollGo, hstep, hj]

theorem pollGo_step_reqErr (step : Nat → PollStep)
    (dl : JobInfo → Except String (List String)) (M P a f : Nat) (m : String)
    (hstep : step a = PollStep.reqErr m) :
    pollGo step dl M P a (f + 1) = (Except.error m, a + 1, []) := by
  simp [pollGo, hstep]

theorem pollGo_step_nonterminal (step : Nat → PollStep)
    (dl : JobInfo → Except String (List String)) (M P a f : Nat) (j : JobInfo)
    (hstep : step a = PollStep.reqOk j)
    (h1 : j.status ≠ "success") (h2 : j.status ≠ "failure") :
    pollGo step dl M P a (f + 1) =
      ((pollGo step dl M P (a + 1) f).1,
       (pollGo step dl M P (a + 1) f).2.1,
       P :: (pollGo step dl M P (a + 1) f).2.2) := by
  simp [pollGo, hstep, h1, h2]

theorem pollGo_step_malformed_mid (step : Nat → PollStep)
    (dl : JobInfo → Except String (List String)) (M P a f : Nat) (m : String)
    (hstep : step a = PollStep.malformed m) (hne : a ≠ M - 1) :
    pollGo step dl M P a (f + 1) = pollGo step dl M P (a + 1) f := by
  simp [pollGo, hstep, hne]

theorem pollGo_step_malformed_last (step : Nat → PollStep)
    (dl : JobInfo → Except String (List String)) (M P a f : Nat) (m : String)
    (hstep : step a = PollStep.malformed m) (hlast : a = M - 1) :
    pollGo step dl M P a (f + 1) =
      (Except.error ("Polling failed: " ++ m), a + 1, []) := by
  subst hlast
  simp [pollGo, hstep]

/-- Skipping a prefix of `k` non-terminal observations: the run is the run
restarted `k` attempts later, with `k` sleeps of `P` seconds prepended. -/
theorem pollGo_skip (step : Nat → PollStep)
    (dl : JobInfo → Except String (List String)) (M P : Nat) :
    ∀ (k a fuel : Nat), k ≤ fuel →
    (∀ i, i < k → isNonTerminalOk (step (a + i)) = true) →
    pollGo step dl M P a fuel =
      ((pollGo step dl M P (a + k) (fuel - k)).1,
       (pollGo step dl M P (a + k) (fuel - k)).2.1,
       List.replicate k P ++ (pollGo step dl M P (a + k) (fuel - k)).2.2) := by
  intro k
  induction k with
  | zero => intro a fuel _ _; simp
  | succ k ih =>
    intro a fuel hk hnt
    obtain ⟨f, rfl⟩ : ∃ f, fuel = f + 1 := ⟨fuel - 1, by omega⟩
    have h0 := hnt 0 (by omega)
    rcases hstep : step a with j | m | m
    · rw [Nat.add_zero, hstep] at h0
      simp only [isNonTerminalOk, Bool.and_eq_true, bne_iff_ne, ne_eq] at h0
      obtain ⟨h1, h2⟩ := h0
      rw [pollGo_step_nonterminal step dl M P a f j hstep h1 h2,
        ih (a + 1) f (by omega)
          (fun i hi => by
            have := hnt (i + 1) (by omega)
            rwa [show a + (i + 1) = a + 1 + i by omega] at this)]
      have ha : a + (k + 1) = a + 1 + k := by omega
      have hf2 : f + 1 - (k + 1) = f - k := by omega
      rw [ha, hf2, List.replicate_succ, List.cons_append]
    · rw [Nat.add_zero, hstep] at h0
      simp [isNonTerminalOk] at h0
    · rw [Nat.add_zero, hstep] at h0
      simp [isNonTerminalOk] at h0

/-- A run starting at `attempt` reports at least `attempt` started attempts,
and strictly more when at least one loop iteration remains. -/
theorem pollGo_attempts_lb (step : Nat → PollStep)
    (dl : JobInfo → Except String (List String)) (M P : Nat) :
    ∀ (fuel a : Nat), a ≤ (pollGo step dl M P a fuel).2.1 ∧
      (1 ≤ fuel → a + 1 ≤ (pollGo step dl M P a fuel).2.1) := by
  intro fuel
  induction fuel with
  | zero => intro a; simp [pollGo]
  | succ f ih =>
    intro a
    rcases hstep : step a with j | m | m
    · by_cases hsu : j.status = "success"
      · rw [pollGo_step_success step dl M P a f j hstep hsu]
        cases dl j <;> simp
      · by_cases hfa : j.status = "failure"
        · rw [pollGo_step_failure step dl M P a f j hstep hfa]
          simp
        · rw [pollGo_step_nonterminal step dl M P a f j hstep hsu hfa]
          dsimp only
          have := (ih (a + 1)).1
          constructor
          · omega
          · intro _; omega
    · rw [pollGo_step_reqErr step dl M P a f m hstep]
      simp
    · by_cases hl : a = M - 1
      · rw [pollGo_step_malformed_last step dl M P a f m hstep hl]
        simp
      · rw [pollGo_step_malformed_mid step dl M P a f m hstep hl]
        have := (ih (a + 1)).1
        constructor
        · omega
        · intro _; omega

/-- Every sleep performed by the polling loop lasts `pollInterval` seconds. -/
theorem pollGo_sleeps_all (step : Nat → PollStep)
    (dl : JobInfo → Except String (List String)) (M P : Nat) :
    ∀ (fuel a : Nat), ∀ s ∈ (pollGo step dl M P a fuel).2.2, s = P := by
  intro fuel
  induction fuel with
  | zero => intro a s hs; simp [pollGo] at hs
  | succ f ih =>
    intro a s hs
    rcases hstep : step a with j | m | m
    · by_cases hsu : j.status = "success"
      · rw [pollGo_step_success step dl M P a f j hstep hsu] at hs
        cases hdl : dl j <;> rw [hdl] at hs <;> simp at hs
      · by_cases hfa : j.status = "failure"
        · rw [pollGo_step_failure step dl M P a f j hstep hfa] at hs
          simp at hs
        · rw [pollGo_step_nonterminal step dl M P a f j hstep hsu hfa] at hs
          dsimp only at hs
          rcases List.mem_cons.mp hs with hs | hs
          · exact hs
          · exact ih (a + 1) s hs
    · rw [pollGo_step_reqErr step dl M P a f m hstep] at hs
      simp at hs
    · by_cases hl : a = M - 1
      · rw [pollGo_step_malformed_last step dl M P a f m hstep hl] at hs
        simp at hs
      · rw [pollGo_step_malformed_mid step dl M P a f m hstep hl] at hs
        exact ih (a + 1) s hs

/-! ## Concrete polling schedules used as witnesses and counterexamples -/

/-- A job observation that is never terminal. -/
def queuedJob : JobInfo := { status := "queued", errMsg := none, assetIds := [] }

/-- A remote job failure with its reported message. -/
def failedJob : JobInfo := { status := "failure", errMsg := some "boom", assetIds := [] }

/-- A status endpoint that always reports `queued`. -/
def stepQueued : Nat → PollStep := fun _ => PollStep.reqOk queuedJob

/-- A status endpoint reporting `queued` twice and then `failure`. -/
def stepFailAt2 : Nat → PollStep := fun i =>
  if i < 2 then PollStep.reqOk queuedJob else PollStep.reqOk failedJob

/-- A status endpoint whose very first read raises a wrapped network
error. -/
def stepHiccup : Nat → PollStep := fun i =>
  if i = 0 then PollStep.reqErr "Network error: connection reset"
  else PollStep.reqOk queuedJob

/-- A download phase that is never reached in the runs it is used in. -/
def dlNone : JobInfo → Except String (List String) :=
  fun _ => Except.error "unused"

/-! ## Claim C2 -/

/-- Modelled from the spec: the adaptive polling schedule the specification
describes — a 2-second wait between each of the first 5 attempts, 3 seconds
for the next 10, and 5 seconds thereafter.  Stated only to be compared with
the schedule the code actually produces. -/
def specAdaptiveInterval (i : Nat) : Nat :=
  if i < 5 then 2 else if i < 15 then 3 else 5

/-- C2 counterexample: on a job that stays `queued`, the wait after the
first polling attempt is 5 seconds, where the claimed adaptive schedule
requires 2 seconds. -/
theorem spec_C2_counterexample :
    (poll_and_download stepQueued dlNone).2.2.head? = some 5 ∧
    specAdaptiveInterval 0 = 2 ∧ ((5 : Nat) = 2 → False) :=
  ⟨rfl, rfl, by omega⟩

/-- C2 as amended: `_poll_and_download` waits a fixed `poll_interval`
(5 seconds by default) between consecutive status polls — the same duration
for every attempt; no adaptive 2s/3s/5s schedule exists in the code. -/
theorem spec_C2_fixed_interval (step : Nat → PollStep)
    (dl : JobInfo → Except String (List String)) :
    ((poll_and_download step dl).2.2).all (fun s => s == 5) = true := by
  rw [List.all_eq_true]
  intro s hs
  have h5 := pollGo_sleeps_all step dl 60 5 60 0 s hs
  simp [h5]

/-! ## Claim C5 -/

/-- C5: a job never observed in a terminal remote status exhausts exactly
the 60 allowed polling attempts and then fails with the timeout message —
whose shape differs from the remote-failure messages (`Job failed: ...`),
from the swallowed-exception surface (`Polling failed: ...`) and from the
wrapped network errors of `_make_request` (`API request failed: ...`,
`Network error: ...`), making the timeout distinguishable. -/
theorem spec_C5_timeout (step : Nat → PollStep)
    (dl : JobInfo → Except String (List String))
    (hnt : ∀ i, isNonTerminalOk (step i) = true) :
    poll_and_download step dl =
      (Except.error "Job timeout after 300 seconds", 60, List.replicate 60 5) ∧
    strStarts "Job timeout after 300 seconds" "Job failed: " = false ∧
    strStarts "Job timeout after 300 seconds" "Polling failed: " = false ∧
    strStarts "Job timeout after 300 seconds" "API request failed: " = false ∧
    strStarts "Job timeout after 300 seconds" "Network error: " = false := by
  refine ⟨?_, by decide, by decide, by decide, by decide⟩
  have h := pollGo_skip step dl 60 5 60 0 60 (by omega) (fun i _ => hnt (0 + i))
  show pollGo step dl 60 5 0 60 =
    (Except.error "Job timeout after 300 seconds", 60, List.replicate 60 5)
  rw [h]
  rfl

/-- Witness for `spec_C5_timeout` on the always-queued schedule. -/
theorem spec_C5_timeout_witness :
    poll_and_download stepQueued dlNone =
      (Except.error "Job timeout after 300 seconds", 60, List.replicate 60 5) ∧
    strStarts "Job timeout after 300 seconds" "Job failed: " = false ∧
    strStarts "Job timeout after 300 seconds" "Polling failed: " = false ∧
    strStarts "Job timeout after 300 seconds" "API request failed: " = false ∧
    strStarts "Job timeout after 300 seconds" "Network error: " = false :=
  spec_C5_timeout stepQueued dlNone (fun _ => rfl)

/-! ## Claim C6 -/

/-- C6: as soon as a poll observes remote status `failure`, the client
raises `Job failed: <remote message>` carrying the remote-reported error,
having started exactly `k + 1` attempts — no further polling, no retry of
the job; the raised message carries the `Job failed: ` marker, in contrast
to the timeout and network shapes (see `spec_C5_timeout`). -/
theorem spec_C6_failure_sticky (step : Nat → PollStep)
    (dl : JobInfo → Except String (List String)) (k : Nat) (j : JobInfo)
    (e : String) (hk : k < 60)
    (hnt : ∀ i, i < k → isNonTerminalOk (step i) = true)
    (hstep : step k = PollStep.reqOk j)
    (hj : j.status = "failure") (he : j.errMsg = some e) :
    poll_and_download step dl =
      (Except.error ("Job failed: " ++ e), k + 1, List.replicate k 5) ∧
    strStarts ("Job failed: " ++ e) "Job failed: " = true := by
  constructor
  · have hskip := pollGo_skip step dl 60 5 k 0 60 (by omega)
      (fun i hi => by simpa using hnt i hi)
    obtain ⟨f, hf⟩ : ∃ f, 60 - k = f + 1 := ⟨60 - k - 1, by omega⟩
    rw [show (0 + k : Nat) = k by omega, hf] at hskip
    rw [pollGo_step_failure step dl 60 5 k f j hstep hj] at hskip
    show pollGo step dl 60 5 0 60 = _
    rw [hskip, he]
    simp
  · exact strStarts_append "Job failed: " e

/-- Witness for `spec_C6_failure_sticky` on a schedule that reports
`failure` at the third attempt. -/
theorem spec_C6_failure_sticky_witness :
    poll_and_download stepFailAt2 dlNone =
      (Except.error ("Job failed: " ++ "boom"), 2 + 1, List.replicate 2 5) ∧
    strStarts ("Job failed: " ++ "boom") "Job failed: " = true :=
  spec_C6_failure_sticky stepFailAt2 dlNone 2 failedJob "boom" (by omega)
    (fun i hi => by
      have h01 : i = 0 ∨ i = 1 := by omega
      rcases h01 with h | h <;> subst h <;> rfl)
    rfl rfl rfl

/-! ## Claim C7 -/

/-- C7 counterexample: a transient network error on the very first status
read (attempt 1 of 60, far from the last allowed attempt) is not swallowed —
`_make_request` wraps it as a `ScenarioAPIError`, which the
`except ScenarioAPIError: raise` clause re-raises, ending polling after a
single attempt. -/
theorem spec_C7_counterexample :
    poll_and_download stepHiccup dlNone =
      (Except.error "Network error: connection reset", 1, []) ∧
    (1 : Nat) < 60 :=
  ⟨rfl, by omega⟩

/-- C7 as amended: an error surfacing from the status request itself (always
wrapped as `ScenarioAPIError` by `_make_request`, after its own bounded
internal retries) aborts polling immediately on whatever attempt it occurs;
only exceptions raised while processing the response payload (never
`ScenarioAPIError`) are swallowed with polling continuing — except on the
very last allowed attempt, where they surface as `Polling failed`. -/
theorem spec_C7_poll_errors (step : Nat → PollStep)
    (dl : JobInfo → Except String (List String)) (k : Nat) (m : String)
    (hk : k < 60)
    (hnt : ∀ i, i < k → isNonTerminalOk (step i) = true) :
    (step k = PollStep.reqErr m →
      poll_and_download step dl =
        (Except.error m, k + 1, List.replicate k 5)) ∧
    (step k = PollStep.malformed m → k ≠ 59 →
      k + 2 ≤ (poll_and_download step dl).2.1) ∧
    (step k = PollStep.malformed m → k = 59 →
      poll_and_download step dl =
        (Except.error ("Polling failed: " ++ m), 60, List.replicate 59 5)) := by
  have hskip := pollGo_skip step dl 60 5 k 0 60 (by omega)
    (fun i hi => by simpa using hnt i hi)
  obtain ⟨f, hf⟩ : ∃ f, 60 - k = f + 1 := ⟨60 - k - 1, by omega⟩
  rw [show (0 + k : Nat) = k by omega, hf] at hskip
  refine ⟨?_, ?_, ?_⟩
  · intro hstep
    rw [pollGo_step_reqErr step dl 60 5 k f m hstep] at hskip
    show pollGo step dl 60 5 0 60 = _
    rw [hskip]
    simp
  · intro hstep hne
    rw [pollGo_step_malformed_mid step dl 60 5 k f m hstep (by omega)] at hskip
    show k + 2 ≤ (pollGo step dl 60 5 0 60).2.1
    rw [hskip]
    dsimp only
    have hlb := (pollGo_attempts_lb step dl 60 5 f (k + 1)).2 (by omega)
    omega
  · intro hstep hlast
    rw [pollGo_step_malformed_last step dl 60 5 k f m hstep (by omega)] at hskip
    show pollGo step dl 60 5 0 60 = _
    rw [hskip]
    subst hlast
    simp

/-- Witness for `spec_C7_poll_errors` at the first-attempt network error. -/
theorem spec_C7_poll_errors_witness :
    (stepHiccup 0 = PollStep.reqErr "Network error: connection reset" →
      poll_and_download stepHiccup dlNone =
        (Except.error "Network error: connection reset", 0 + 1,
          List.replicate 0 5)) ∧
    (stepHiccup 0 = PollStep.malformed "Network error: connection reset" →
      (0 : Nat) ≠ 59 →
      0 + 2 ≤ (poll_and_download stepHiccup dlNone).2.1) ∧
    (stepHiccup 0 = PollStep.malformed "Network error: connection reset" →
      (0 : Nat) = 59 →
      poll_and_download stepHiccup dlNone =
        (Except.error ("Polling failed: " ++ "Network error: connection reset"),
          60, List.replicate 59 5)) :=
  spec_C7_poll_errors stepHiccup dlNone 0 "Network error: connection reset"
    (by omega) (fun i hi => absurd hi (by omega))

/-! ## Claim C8 -/

/-- C8: after a job reports `success`, per-asset failures are skipped and
the remaining assets are still resolved — three asset identifiers with one
failing lookup yield exactly the two successfully resolved files, in order —
while a successful job none of whose assets resolves raises
`Failed to download any images` (a `ScenarioAPIError`). -/
theorem spec_C8_partial_assets
    (r1 r2 : Nat → String → AssetStep) (dir ts : String)
    (j1 j2 : JobInfo) (a b c u w : String)
    (h1s : j1.status = "success") (h1a : j1.assetIds = [a, b, c])
    (h10 : r1 0 a = AssetStep.resolved u)
    (h11 : r1 1 b = AssetStep.lookupErr)
    (h12 : r1 2 c = AssetStep.resolved w)
    (h2s : j2.status = "success") (h2a : j2.assetIds ≠ [])
    (h2f : ∀ i x v, r2 i x ≠ AssetStep.resolved v) :
    poll_and_download (fun _ => PollStep.reqOk j1) (download_images r1 dir ts) =
      (Except.ok [assetFilePath dir ts 0, assetFilePath dir ts 2], 1, []) ∧
    [assetFilePath dir ts 0, assetFilePath dir ts 2].length = 2 ∧
    download_images r2 dir ts j2 = Except.error "Failed to download any images" := by
  have hdl : download_images r1 dir ts j1 =
      Except.ok [assetFilePath dir ts 0, assetFilePath dir ts 2] := by
    simp [download_images, h1a, List.enum, List.enumFrom, downloadLoop,
      h10, h11, h12]
  refine ⟨?_, rfl, ?_⟩
  · have h1 := pollGo_step_success (fun _ => PollStep.reqOk j1)
      (download_images r1 dir ts) 60 5 0 59 j1 rfl h1s
    rw [hdl] at h1
    exact h1
  · have hloop : ∀ l, downloadLoop r2 dir ts l = [] := by
      intro l
      induction l with
      | nil => rfl
      | cons hd tl ih =>
        obtain ⟨i, aid⟩ := hd
        cases hra : r2 i aid with
        | lookupErr => simp [downloadLoop, hra, ih]
        | noUrl => simp [downloadLoop, hra, ih]
        | downloadErr v => simp [downloadLoop, hra, ih]
        | resolved v => exact absurd hra (h2f i aid v)
    cases hj2 : j2.assetIds with
    | nil => exact absurd hj2 h2a
    | cons x xs => simp [download_images, hj2, hloop]

/-- Concrete asset resolvers for the `spec_C8_partial_assets` witness. -/
def resolveOneFails : Nat → String → AssetStep := fun i _ =>
  if i = 1 then AssetStep.lookupErr else AssetStep.resolved "u"

/-- An asset resolver for which every lookup fails. -/
def resolveAllFail : Nat → String → AssetStep := fun _ _ => AssetStep.lookupErr

/-- A successful job with three asset identifiers. -/
def jobThreeAssets : JobInfo :=
  { status := "success", errMsg := none, assetIds := ["a1", "a2", "a3"] }

/-- A successful job with one (unresolvable) asset identifier. -/
def jobOneAsset : JobInfo :=
  { status := "success", errMsg := none, assetIds := ["a1"] }

/-- Witness for `spec_C8_partial_assets` at concrete jobs and resolvers. -/
theorem spec_C8_partial_assets_witness :
    poll_and_download (fun _ => PollStep.reqOk jobThreeAssets)
        (download_images resolveOneFails "out" "t") =
      (Except.ok [assetFilePath "out" "t" 0, assetFilePath "out" "t" 2], 1, []) ∧
    [assetFilePath "out" "t" 0, assetFilePath "out" "t" 2].length = 2 ∧
    download_images resolveAllFail "out" "t" jobOneAsset =
      Except.error "Failed to download any images" :=
  spec_C8_partial_assets resolveOneFails resolveAllFail "out" "t"
    jobThreeAssets jobOneAsset "a1" "a2" "a3" "u" "u"
    rfl rfl rfl rfl rfl rfl (by simp [jobOneAsset])
    (fun i x v h => AssetStep.noConfusion h)

end AIRV
